import Mathlib

/-!
Verification development for the trading-engine repository.

The Python modules `position_sizing.py`, `strategy.py`, `portfolio_risk.py`,
`execution.py`, `compliance.py`, `universe.py`, `trade_filters.py` and the
risk stage of `trading_engine.py` are shallowly embedded below: floats are
modelled as rationals, Python `int(...)` truncation as `pyInt`, dictionaries
as association lists, and mutating methods as state-passing functions.
-/

/-- Python `int(x)` truncation toward zero on a rational. -/
def pyInt (q : ℚ) : ℤ := if 0 ≤ q then ⌊q⌋ else ⌈q⌉

/-- Python `dict.get(k, d)` on an association list. -/
def lookupD {α : Type} (l : List (String × α)) (k : String) (d : α) : α :=
  match l.find? (fun p => p.1 == k) with
  | some p => p.2
  | none => d

/-- Python `dict[k] = v`: update in place if the key exists, else append. -/
def dictSet {α : Type} (l : List (String × α)) (k : String) (v : α) : List (String × α) :=
  if (l.find? (fun p => p.1 == k)).isSome then
    l.map (fun p => if p.1 == k then (k, v) else p)
  else l ++ [(k, v)]

namespace PositionSizing

/-- Result record of `PositionSizer.size_position` (position_sizing.py). -/
structure PositionSizingResult where
  shares : ℤ
  notional : ℚ
  risk_amount : ℚ
  risk_pct : ℚ
  reject_reason : Option String
deriving DecidableEq

/-- Configuration fields of `PositionSizer.__init__` (position_sizing.py). -/
structure PositionSizer where
  risk_per_trade_pct : ℚ
  max_open_risk_pct : ℚ
  max_exposure_per_symbol_pct : ℚ
  max_exposure_per_sector_pct : ℚ
  high_vol_enabled : Bool
  high_vol_atr_threshold : ℚ
  high_vol_size_multiplier : ℚ
deriving DecidableEq

/-- Default configuration values of `PositionSizer.__init__`. -/
def defaultSizer : PositionSizer :=
  { risk_per_trade_pct := 1/2
    max_open_risk_pct := 3
    max_exposure_per_symbol_pct := 20
    max_exposure_per_sector_pct := 40
    high_vol_enabled := false
    high_vol_atr_threshold := 2
    high_vol_size_multiplier := 1/2 }

/-- Python `atr_pct is not None and atr_pct > threshold`. -/
def atr_above : Option ℚ → ℚ → Bool
  | none, _ => false
  | some a, thr => decide (thr < a)

/-- Tail of `size_position` (position_sizing.py lines 99-128): the high-volatility
reduction followed by the sector exposure check.  `shares0`, `notional0`,
`risk_amount0`, `risk_pct0` are the values flowing out of the symbol-exposure
branch. -/
def sizeFinish (s : PositionSizer) (account_equity price risk_per_share : ℚ)
    (symbol : String) (sector_exposure_pct : List (String × ℚ))
    (symbol_sector : List (String × String)) (atr_pct : Option ℚ)
    (shares0 : ℤ) (notional0 risk_amount0 risk_pct0 : ℚ) : PositionSizingResult :=
  let hv := s.high_vol_enabled && atr_above atr_pct s.high_vol_atr_threshold
  let shares := if hv then max 1 (pyInt ((shares0 : ℚ) * s.high_vol_size_multiplier)) else shares0
  let notional := if hv then (shares : ℚ) * price else notional0
  let risk_amount := if hv then (shares : ℚ) * risk_per_share else risk_amount0
  let risk_pct := if hv then risk_amount / account_equity * 100 else risk_pct0
  let exposure_pct := notional / account_equity * 100
  let sector := lookupD symbol_sector symbol ("unknown")
  let current_sector_pct := lookupD sector_exposure_pct sector 0
  if s.max_exposure_per_sector_pct < current_sector_pct + exposure_pct then
    ⟨0, 0, 0, 0, some ("sector would exceed max_exposure_per_sector_pct")⟩
  else
    ⟨shares, notional, risk_amount, risk_pct, none⟩

/-- `PositionSizer.size_position` (position_sizing.py lines 33-128).
`current_positions` is passed but, as in the source, never used. -/
def size_position (s : PositionSizer) (account_equity price stop_distance_pct : ℚ)
    (symbol : String) (current_positions : List (ℚ × ℚ))
    (sector_exposure_pct : List (String × ℚ)) (symbol_sector : List (String × String))
    (atr_pct : Option ℚ) : PositionSizingResult :=
  let _ := current_positions
  let risk_amount := account_equity * (s.risk_per_trade_pct / 100)
  if stop_distance_pct ≤ 0 then
    ⟨0, 0, 0, 0, some ("invalid stop_distance_pct")⟩
  else
    let risk_per_share := price * (stop_distance_pct / 100)
    if risk_per_share ≤ 0 then
      ⟨0, 0, 0, 0, some ("risk_per_share <= 0")⟩
    else
      let shares_by_risk := pyInt (risk_amount / risk_per_share)
      if shares_by_risk ≤ 0 then
        ⟨0, 0, 0, 0, some ("shares <= 0 (risk too small vs stop)")⟩
      else
        let max_notional := account_equity * (s.max_exposure_per_symbol_pct / 100)
        let notional_by_risk := (shares_by_risk : ℚ) * price
        if max_notional < notional_by_risk then
          let notional := max_notional
          let shares := pyInt (notional / price)
          if shares ≤ 0 then
            ⟨0, 0, 0, 0, some ("exposure cap yields zero shares")⟩
          else
            let risk_amount' := (shares : ℚ) * risk_per_share
            let risk_pct := risk_amount' / account_equity * 100
            sizeFinish s account_equity price risk_per_share symbol sector_exposure_pct
              symbol_sector atr_pct shares notional risk_amount' risk_pct
        else
          sizeFinish s account_equity price risk_per_share symbol sector_exposure_pct
            symbol_sector atr_pct shares_by_risk notional_by_risk risk_amount
            s.risk_per_trade_pct

/-- `PositionSizer.total_open_risk_pct` (position_sizing.py lines 130-142). -/
def total_open_risk_pct (account_equity : ℚ) (positions_with_stops : List (ℚ × ℚ)) : ℚ :=
  if account_equity ≤ 0 then 0
  else (positions_with_stops.map
    (fun p => p.1 * (p.2 / 100) / account_equity * 100)).sum

/-- `PositionSizer.would_exceed_max_open_risk` (position_sizing.py lines 144-150).
The `account_equity` parameter is present in the source signature and unused. -/
def would_exceed_max_open_risk (s : PositionSizer) (account_equity : ℚ)
    (current_open_risk_pct new_trade_risk_pct : ℚ) : Bool :=
  let _ := account_equity
  decide (s.max_open_risk_pct < current_open_risk_pct + new_trade_risk_pct)

end PositionSizing

namespace Strategy

/-- `ExitReason` enum (strategy.py lines 23-28). -/
inductive ExitReason where
  | stop_loss
  | take_profit
  | time_bars
  | kill_switch
  | signal_exit
deriving DecidableEq

/-- `ExitSignal` (strategy.py lines 42-46); the metadata dict is not modelled. -/
structure ExitSignal where
  symbol : String
  reason : ExitReason
deriving DecidableEq

/-- Exit-relevant configuration of `TrendFollowingStrategy.__init__` (strategy.py).
`take_profit_pct = none` models the Python value `None` produced by
`float(...) or None` when the configured value is 0. -/
structure TrendFollowingStrategy where
  stop_loss_pct : ℚ
  take_profit_pct : Option ℚ
  time_bars_exit : ℤ
  kill_switch_max_spread_pct : ℚ
  kill_switch_max_atr_multiple : ℚ
deriving DecidableEq

/-- Default exit configuration of `TrendFollowingStrategy.__init__`. -/
def defaultStrategy : TrendFollowingStrategy :=
  { stop_loss_pct := 3/2
    take_profit_pct := some 3
    time_bars_exit := 20
    kill_switch_max_spread_pct := 1/4
    kill_switch_max_atr_multiple := 3 }

/-- `ret_pct = (current_price - entry_price) / entry_price * 100` (strategy.py line 182). -/
def ret_pct (entry_price current_price : ℚ) : ℚ :=
  (current_price - entry_price) / entry_price * 100

/-- Stop-loss condition `ret_pct <= -stop_loss_pct` (strategy.py line 184). -/
def stop_fires (s : TrendFollowingStrategy) (entry_price current_price : ℚ) : Bool :=
  decide (ret_pct entry_price current_price ≤ -s.stop_loss_pct)

/-- Take-profit condition `self.take_profit_pct and ret_pct >= self.take_profit_pct`
(strategy.py line 186); Python truthiness makes `None` and `0.0` fail the test. -/
def take_profit_fires (s : TrendFollowingStrategy) (entry_price current_price : ℚ) : Bool :=
  match s.take_profit_pct with
  | none => false
  | some tp => !decide (tp = 0) && decide (tp ≤ ret_pct entry_price current_price)

/-- Time-based condition `bars_held >= time_bars_exit` (strategy.py line 188). -/
def time_fires (s : TrendFollowingStrategy) (bars_held : ℤ) : Bool :=
  decide (s.time_bars_exit ≤ bars_held)

/-- Kill-switch spread condition (strategy.py line 190). -/
def spread_kill_fires (s : TrendFollowingStrategy) (spread_pct : Option ℚ) : Bool :=
  match spread_pct with
  | none => false
  | some x => decide (s.kill_switch_max_spread_pct < x)

/-- Kill-switch ATR condition (strategy.py line 192). -/
def atr_kill_fires (s : TrendFollowingStrategy) (atr_multiple : Option ℚ) : Bool :=
  match atr_multiple with
  | none => false
  | some x => decide (s.kill_switch_max_atr_multiple < x)

/-- `TrendFollowingStrategy.check_exit` (strategy.py lines 172-194). -/
def check_exit (s : TrendFollowingStrategy) (symbol : String)
    (entry_price current_price : ℚ) (bars_held : ℤ)
    (spread_pct atr_multiple : Option ℚ) : Option ExitSignal :=
  if stop_fires s entry_price current_price then some ⟨symbol, .stop_loss⟩
  else if take_profit_fires s entry_price current_price then some ⟨symbol, .take_profit⟩
  else if time_fires s bars_held then some ⟨symbol, .time_bars⟩
  else if spread_kill_fires s spread_pct then some ⟨symbol, .kill_switch⟩
  else if atr_kill_fires s atr_multiple then some ⟨symbol, .kill_switch⟩
  else none

/-- Modelled from the spec's exit table (spec 4.6): the five exit conditions in
their fixed priority order, each paired with the reason it produces. -/
def exit_priority_table (s : TrendFollowingStrategy) (entry_price current_price : ℚ)
    (bars_held : ℤ) (spread_pct atr_multiple : Option ℚ) : List (Bool × ExitReason) :=
  [(stop_fires s entry_price current_price, .stop_loss),
   (take_profit_fires s entry_price current_price, .take_profit),
   (time_fires s bars_held, .time_bars),
   (spread_kill_fires s spread_pct, .kill_switch),
   (atr_kill_fires s atr_multiple, .kill_switch)]

/-- Modelled from the spec's exit table: the reason of the first condition that
fires, or `none` when no condition fires. -/
def first_firing_exit (s : TrendFollowingStrategy) (entry_price current_price : ℚ)
    (bars_held : ℤ) (spread_pct atr_multiple : Option ℚ) : Option ExitReason :=
  ((exit_priority_table s entry_price current_price bars_held spread_pct atr_multiple).find?
    (fun c => c.1)).map (fun c => c.2)

end Strategy

namespace PortfolioRisk

/-- `PortfolioRiskState` (portfolio_risk.py lines 13-22); dates and timestamps are
modelled as integers. -/
structure State where
  equity_curve : List (ℤ × ℚ)
  peak_equity : ℚ
  daily_pnl_pct : ℚ
  daily_trade_count : ℕ
  daily_trades_per_symbol : List (String × ℕ)
  last_trade_date : Option ℤ
  safe_mode : Bool
  trading_stopped_for_day : Bool
deriving DecidableEq

/-- The dataclass defaults of `PortfolioRiskState`. -/
def prInit : State := ⟨[], 0, 0, 0, [], none, false, false⟩

/-- Configuration fields of `PortfolioRiskManager.__init__` (portfolio_risk.py). -/
structure PortfolioRiskManager where
  daily_loss_limit_pct : ℚ
  max_drawdown_pct : ℚ
  safe_mode_after_max_dd : Bool
  recovery_criteria_pct : ℚ
  max_trades_per_day : ℕ
  max_trades_per_symbol_per_day : ℕ
deriving DecidableEq

/-- Default configuration of `PortfolioRiskManager.__init__`. -/
def defaultPR : PortfolioRiskManager := ⟨-2, -10, true, -8, 15, 3⟩

/-- `PortfolioRiskManager.update_equity` (portfolio_risk.py lines 35-38). -/
def update_equity (st : State) (dt : ℤ) (equity : ℚ) : State :=
  { st with equity_curve := st.equity_curve ++ [(dt, equity)],
            peak_equity := if st.peak_equity < equity then equity else st.peak_equity }

/-- `PortfolioRiskManager.current_drawdown_pct` (portfolio_risk.py lines 40-43). -/
def current_drawdown_pct (st : State) (current_equity : ℚ) : ℚ :=
  if st.peak_equity ≤ 0 then 0
  else (current_equity - st.peak_equity) / st.peak_equity * 100

/-- `PortfolioRiskManager.check_daily_reset` (portfolio_risk.py lines 45-51). -/
def check_daily_reset (st : State) (today : ℤ) : State :=
  if st.last_trade_date ≠ some today then
    { st with daily_pnl_pct := 0, daily_trade_count := 0, daily_trades_per_symbol := [],
              trading_stopped_for_day := false, last_trade_date := some today }
  else st

/-- `PortfolioRiskManager.can_trade` (portfolio_risk.py lines 53-92), with the
mutated state returned alongside the allowed flag; reason strings are elided. -/
def can_trade (m : PortfolioRiskManager) (st : State) (current_equity : ℚ)
    (symbol : String) (today : ℤ) : Bool × State :=
  let st1 := check_daily_reset st today
  if st1.safe_mode = true ∧ current_drawdown_pct st1 current_equity ≤ m.recovery_criteria_pct then
    (false, st1)
  else if st1.trading_stopped_for_day = true then
    (false, st1)
  else if st1.daily_pnl_pct ≤ m.daily_loss_limit_pct then
    (false, { st1 with trading_stopped_for_day := true })
  else if current_drawdown_pct st1 current_equity ≤ m.max_drawdown_pct
      ∧ m.safe_mode_after_max_dd = true then
    (false, { st1 with safe_mode := true })
  else if m.max_trades_per_day ≤ st1.daily_trade_count then
    (false, st1)
  else if m.max_trades_per_symbol_per_day ≤ lookupD st1.daily_trades_per_symbol symbol 0 then
    (false, st1)
  else
    (true, st1)

/-- `PortfolioRiskManager.record_trade` (portfolio_risk.py lines 94-97). -/
def record_trade (st : State) (symbol : String) (pnl_pct : ℚ) : State :=
  { st with daily_trade_count := st.daily_trade_count + 1,
            daily_trades_per_symbol :=
              dictSet st.daily_trades_per_symbol symbol
                (lookupD st.daily_trades_per_symbol symbol 0 + 1),
            daily_pnl_pct := st.daily_pnl_pct + pnl_pct }

/-- One call to a `PortfolioRiskManager` operation, for reasoning about arbitrary
call sequences. -/
inductive PROp where
  | updateEquity (dt : ℤ) (equity : ℚ)
  | checkDailyReset (today : ℤ)
  | canTrade (current_equity : ℚ) (symbol : String) (today : ℤ)
  | recordTrade (symbol : String) (pnl_pct : ℚ)

/-- State transition of a single `PortfolioRiskManager` operation. -/
def step (m : PortfolioRiskManager) (st : State) : PROp → State
  | .updateEquity dt e => update_equity st dt e
  | .checkDailyReset d => check_daily_reset st d
  | .canTrade e sym d => (can_trade m st e sym d).2
  | .recordTrade sym p => record_trade st sym p

end PortfolioRisk

namespace Execution

/-- `FillReport` (execution.py lines 30-38); the timestamp is injected rather than
read from the clock. -/
structure FillReport where
  symbol : String
  side : String
  quantity : ℤ
  fill_price : ℚ
  expected_price : ℚ
  slippage_bps : ℚ
  timestamp : ℤ
deriving DecidableEq

/-- `ExecutionState` (execution.py lines 41-45). -/
structure ExecutionState where
  fill_history : List FillReport
  strategy_slippage_bps_avg : ℚ
  strategy_blocked : Bool
deriving DecidableEq

/-- Configuration of `ExecutionManager.__init__` relevant to `record_fill`;
the remaining config fields are not used by the embedded operations. -/
structure ExecutionManager where
  block_strategy_if_slippage_bps_avg_exceeds : ℚ
deriving DecidableEq

/-- Default `block_strategy_if_slippage_bps_avg_exceeds` of `ExecutionManager.__init__`. -/
def defaultExec : ExecutionManager := ⟨25⟩

/-- `ExecutionManager.record_fill` (execution.py lines 101-134).  The source's
`if n > 0` guard is always true after the append, so the average is recomputed
unconditionally. -/
def record_fill (m : ExecutionManager) (st : ExecutionState) (symbol side : String)
    (quantity : ℤ) (fill_price expected_price : ℚ) (now : ℤ) : ExecutionState :=
  let slippage_bps : ℚ :=
    if expected_price ≤ 0 then 0
    else if side = "buy" then (fill_price - expected_price) / expected_price * 10000
    else (expected_price - fill_price) / expected_price * 10000
  let fill_history := st.fill_history
    ++ [⟨symbol, side, quantity, fill_price, expected_price, slippage_bps, now⟩]
  let avg := (fill_history.map FillReport.slippage_bps).sum / (fill_history.length : ℚ)
  { fill_history := fill_history,
    strategy_slippage_bps_avg := avg,
    strategy_blocked :=
      if m.block_strategy_if_slippage_bps_avg_exceeds < avg then true
      else st.strategy_blocked }

end Execution

namespace Compliance

/-- `PDTState` (compliance.py lines 13-17); dates are modelled as integers. -/
structure PDTState where
  equity : ℚ
  day_trades_count_rolling : ℕ
  day_trade_dates : List ℤ
deriving DecidableEq

/-- Configuration fields of `ComplianceManager.__init__` (compliance.py). -/
structure ComplianceManager where
  pdt_min_equity : ℚ
  pdt_enabled : Bool
  margin_account : Bool
deriving DecidableEq

/-- Default configuration of `ComplianceManager.__init__`. -/
def defaultCompliance : ComplianceManager :=
  { pdt_min_equity := 25000, pdt_enabled := true, margin_account := true }

/-- `ComplianceManager.can_day_trade` (compliance.py lines 33-55); the reason
strings are reduced to constant tags. -/
def can_day_trade (m : ComplianceManager) (st : PDTState) (trade_date : ℤ) : Bool × String :=
  if m.pdt_enabled = false ∨ m.margin_account = false then
    (true, "PDT not applicable")
  else if m.pdt_min_equity ≤ st.equity then
    (true, "equity above PDT threshold")
  else
    let cutoff := trade_date - 7
    let recent := st.day_trade_dates.filter (fun d => decide (cutoff ≤ d))
    if 3 ≤ recent.length then
      (false, "PDT: day trade limit in rolling 5 business days reached")
    else
      (true, "ok")

end Compliance

namespace Universe

/-- `SessionWindow` (universe.py lines 23-27); times of day are modelled as
minutes since midnight, which order exactly as Python `datetime.time` values. -/
structure SessionWindow where
  start : ℕ
  end_ : ℕ
  trade_allowed : Bool
deriving DecidableEq

/-- `MarketCalendar._in_window` (universe.py lines 81-85). -/
def _in_window (t : ℕ) (w : SessionWindow) : Bool :=
  if w.start ≤ w.end_ then decide (w.start ≤ t) && decide (t < w.end_)
  else decide (w.start ≤ t) || decide (t < w.end_)

end Universe

namespace TradeFilters

/-- Per-window membership test inside `MacroEventBlackout.check`
(trade_filters.py lines 63-68). -/
def window_hit (t sstart send : ℕ) : Bool :=
  if sstart ≤ send then decide (sstart ≤ t) && decide (t < send)
  else decide (sstart ≤ t) || decide (t < send)

/-- Configuration of `MacroEventBlackout.__init__` (trade_filters.py); the
blackout windows are `(date, start, end)` triples. -/
structure MacroEventBlackout where
  enabled : Bool
  blackout_dates : List ℤ
  blackout_windows : List (ℤ × ℕ × ℕ)
deriving DecidableEq

/-- `MacroEventBlackout.check` (trade_filters.py lines 53-69), returning the
allowed flag of the `FilterResult`. -/
def MacroEventBlackout.check (mb : MacroEventBlackout) (d : ℤ) (t : ℕ) : Bool :=
  if mb.enabled = false then true
  else if mb.blackout_dates.contains d then false
  else if mb.blackout_windows.any
      (fun w => decide (w.1 = d) && window_hit t w.2.1 w.2.2) then false
  else true

end TradeFilters

namespace TradingEngine

/-- Outcome of the sizing / max-open-risk stage of `run_entry_gates`. -/
inductive RiskStageResult where
  | rejected (reason : String)
  | vetoMaxOpenRisk
  | passed (sizing : PositionSizing.PositionSizingResult)
deriving DecidableEq

/-- Sizing and max-open-risk stage of `TradingEngine.run_entry_gates`
(trading_engine.py lines 142-170), entered once the earlier gates have passed
and the strategy has produced an entry signal with stop `entry_stop_pct`.
`current_positions` is the list of `(notional, stop_pct)` pairs extracted from
the positions dict.  As in the source, the computed `open_risk_pct` is passed
as the first argument of `would_exceed_max_open_risk` (its unused
`account_equity` parameter) and `entry.stop_pct` as the second. -/
def run_entry_gates_risk_stage (sizer : PositionSizing.PositionSizer)
    (account_equity : ℚ) (current_positions : List (ℚ × ℚ))
    (entry_stop_pct : ℚ) (price : ℚ) (symbol : String)
    (sector_exposure_pct : List (String × ℚ)) (symbol_sector : List (String × String))
    (atr_pct : Option ℚ) : RiskStageResult :=
  let open_risk_pct := PositionSizing.total_open_risk_pct account_equity current_positions
  let sizing := PositionSizing.size_position sizer account_equity price entry_stop_pct
    symbol current_positions sector_exposure_pct symbol_sector atr_pct
  match sizing.reject_reason with
  | some r => .rejected r
  | none =>
    if PositionSizing.would_exceed_max_open_risk sizer open_risk_pct entry_stop_pct
        sizing.risk_pct then
      .vetoMaxOpenRisk
    else
      .passed sizing

end TradingEngine

namespace PositionSizing

/-- A sizer configured with a `high_vol_size_multiplier` greater than 1
(enlargement instead of reduction), used to probe the exposure-cap property. -/
def hvTripleSizer : PositionSizer :=
  { risk_per_trade_pct := 1
    max_open_risk_pct := 3
    max_exposure_per_symbol_pct := 20
    max_exposure_per_sector_pct := 40
    high_vol_enabled := true
    high_vol_atr_threshold := 2
    high_vol_size_multiplier := 3 }

end PositionSizing

lemma pyInt_le_intCast {q : ℚ} {z : ℤ} (h : q ≤ (z : ℚ)) : pyInt q ≤ z := by
  unfold pyInt
  split
  · exact le_trans (Int.floor_mono h) (le_of_eq (Int.floor_intCast z))
  · exact Int.ceil_le.mpr h

lemma pyInt_cast_le_self {q : ℚ} (h : 0 ≤ q) : (pyInt q : ℚ) ≤ q := by
  unfold pyInt
  rw [if_pos h]
  exact Int.floor_le q

lemma nonneg_of_pyInt_pos {q : ℚ} (h : 0 < pyInt q) : 0 ≤ q := by
  by_contra hq
  push_neg at hq
  have h2 : pyInt q ≤ 0 := by
    unfold pyInt
    rw [if_neg (not_le.mpr hq)]
    exact Int.ceil_le.mpr (by exact_mod_cast hq.le)
  omega

/-- C1: in the sizing stage of `run_entry_gates`, at an input whose current
positions carry 10% open risk against the default 3% cap, the decision is NOT
vetoed: the call site hands the computed `open_risk_pct` to the unused
`account_equity` parameter of `would_exceed_max_open_risk` and compares
`entry.stop_pct + sizing.risk_pct` (1.8%) against the cap instead of
`current_open_risk_pct + sizing.risk_pct` (10.3%), contradicting the claimed
veto condition. -/
theorem max_open_risk_gate_uses_entry_stop_not_open_risk :
    TradingEngine.run_entry_gates_risk_stage PositionSizing.defaultSizer 100000 [(200000, 5)]
        (3/2) 100 "SPY" [] [] none
      = .passed ⟨200, 20000, 300, 3/10, none⟩
    ∧ PositionSizing.total_open_risk_pct 100000 [(200000, 5)] = 10
    ∧ PositionSizing.would_exceed_max_open_risk PositionSizing.defaultSizer
        (PositionSizing.total_open_risk_pct 100000 [(200000, 5)]) (3/2) (3/10) = false
    ∧ PositionSizing.defaultSizer.max_open_risk_pct
        < PositionSizing.total_open_risk_pct 100000 [(200000, 5)] + 3/10 := by
  have hsz : PositionSizing.size_position PositionSizing.defaultSizer 100000 100 (3/2)
      "SPY" [(200000, 5)] [] [] none = ⟨200, 20000, 300, 3/10, none⟩ := by
    norm_num [PositionSizing.size_position, PositionSizing.sizeFinish,
      PositionSizing.defaultSizer, pyInt, PositionSizing.atr_above, lookupD]
  have hrisk : PositionSizing.total_open_risk_pct 100000 [(200000, 5)] = 10 := by
    norm_num [PositionSizing.total_open_risk_pct]
  refine ⟨?_, hrisk, ?_, ?_⟩
  · simp only [TradingEngine.run_entry_gates_risk_stage, hsz]
    norm_num [PositionSizing.would_exceed_max_open_risk, PositionSizing.defaultSizer]
  · rw [hrisk]
    norm_num [PositionSizing.would_exceed_max_open_risk, PositionSizing.defaultSizer]
  · rw [hrisk]
    norm_num [PositionSizing.defaultSizer]

/-- C2: for every `check_exit` call with positive entry price, `ret_pct` is
`(current - entry)/entry * 100`, the returned reason is the first condition to
fire in the fixed priority order stop-loss, take-profit, time, kill-switch
(spread), kill-switch (ATR); in particular stop+target+time firing yields
`STOP_LOSS`, target+time (without stop) yields `TAKE_PROFIT`, and no condition
firing yields `none`. -/
theorem check_exit_priority_spec (s : Strategy.TrendFollowingStrategy) (symbol : String)
    (entry_price current_price : ℚ) (bars_held : ℤ) (spread_pct atr_multiple : Option ℚ)
    (hentry : 0 < entry_price) :
    (Strategy.ret_pct entry_price current_price
        = (current_price - entry_price) / entry_price * 100)
    ∧ ((Strategy.check_exit s symbol entry_price current_price bars_held spread_pct
          atr_multiple).map Strategy.ExitSignal.reason
        = Strategy.first_firing_exit s entry_price current_price bars_held spread_pct
            atr_multiple)
    ∧ (Strategy.stop_fires s entry_price current_price = true
        ∧ Strategy.take_profit_fires s entry_price current_price = true
        ∧ Strategy.time_fires s bars_held = true →
        (Strategy.check_exit s symbol entry_price current_price bars_held spread_pct
          atr_multiple).map Strategy.ExitSignal.reason = some .stop_loss)
    ∧ (Strategy.stop_fires s entry_price current_price = false
        ∧ Strategy.take_profit_fires s entry_price current_price = true
        ∧ Strategy.time_fires s bars_held = true →
        (Strategy.check_exit s symbol entry_price current_price bars_held spread_pct
          atr_multiple).map Strategy.ExitSignal.reason = some .take_profit)
    ∧ (Strategy.stop_fires s entry_price current_price = false
        ∧ Strategy.take_profit_fires s entry_price current_price = false
        ∧ Strategy.time_fires s bars_held = false
        ∧ Strategy.spread_kill_fires s spread_pct = false
        ∧ Strategy.atr_kill_fires s atr_multiple = false →
        Strategy.check_exit s symbol entry_price current_price bars_held spread_pct
          atr_multiple = none) := by
  refine ⟨rfl, ?_, ?_, ?_, ?_⟩
  · cases hs : Strategy.stop_fires s entry_price current_price <;>
      cases htp : Strategy.take_profit_fires s entry_price current_price <;>
      cases ht : Strategy.time_fires s bars_held <;>
      cases hsp : Strategy.spread_kill_fires s spread_pct <;>
      cases ha : Strategy.atr_kill_fires s atr_multiple <;>
      simp [Strategy.check_exit, Strategy.first_firing_exit, Strategy.exit_priority_table,
        List.find?, hs, htp, ht, hsp, ha]
  · rintro ⟨ha, hb, hc⟩
    simp [Strategy.check_exit, ha]
  · rintro ⟨ha, hb, hc⟩
    simp [Strategy.check_exit, ha, hb]
  · rintro ⟨ha, hb, hc, hd, he⟩
    simp [Strategy.check_exit, ha, hb, hc, hd, he]

/-- C2 witness: the priority equivalence evaluated at scenario S6 (entry 100,
price 94, ten bars held). -/
theorem check_exit_priority_spec_witness :
    (Strategy.check_exit Strategy.defaultStrategy "SPY" 100 94 10 none none).map
        Strategy.ExitSignal.reason
      = Strategy.first_firing_exit Strategy.defaultStrategy 100 94 10 none none :=
  (check_exit_priority_spec Strategy.defaultStrategy "SPY" 100 94 10 none none
    (by norm_num)).2.1

lemma sizeFinish_exposure (s : PositionSizing.PositionSizer)
    (account_equity price risk_per_share : ℚ) (symbol : String)
    (sector_exposure_pct : List (String × ℚ)) (symbol_sector : List (String × String))
    (atr_pct : Option ℚ) (shares0 : ℤ) (notional0 risk_amount0 risk_pct0 M : ℚ)
    (h1 : 1 ≤ shares0) (hM : (shares0 : ℚ) * price ≤ M) (hp : 0 ≤ price)
    (hm : s.high_vol_size_multiplier ≤ 1) :
    ((PositionSizing.sizeFinish s account_equity price risk_per_share symbol
        sector_exposure_pct symbol_sector atr_pct shares0 notional0 risk_amount0
        risk_pct0).shares : ℚ) * price ≤ M := by
  have hs0 : (0 : ℚ) ≤ (shares0 : ℚ) := by exact_mod_cast le_trans zero_le_one h1
  have hM0 : 0 ≤ M := le_trans (mul_nonneg hs0 hp) hM
  simp only [PositionSizing.sizeFinish]
  cases hhv : (s.high_vol_enabled && PositionSizing.atr_above atr_pct s.high_vol_atr_threshold) with
  | false =>
    simp only [hhv, if_false, Bool.false_eq_true]
    split_ifs with hsec
    · simpa using hM0
    · exact hM
  | true =>
    have hle : max 1 (pyInt ((shares0 : ℚ) * s.high_vol_size_multiplier)) ≤ shares0 := by
      refine max_le h1 (pyInt_le_intCast ?_)
      calc (shares0 : ℚ) * s.high_vol_size_multiplier
          ≤ (shares0 : ℚ) * 1 := mul_le_mul_of_nonneg_left hm hs0
        _ = (shares0 : ℚ) := mul_one _
    simp only [hhv, if_true]
    split_ifs with hsec
    · simpa using hM0
    · calc ((max 1 (pyInt ((shares0 : ℚ) * s.high_vol_size_multiplier)) : ℤ) : ℚ) * price
          ≤ (shares0 : ℚ) * price :=
            mul_le_mul_of_nonneg_right (by exact_mod_cast hle) hp
        _ ≤ M := hM

/-- C3 (amended): every accepted sizing (no reject reason) with positive price
and equity satisfies `shares * price ≤ equity * max_exposure_per_symbol_pct / 100`,
provided the high-volatility size multiplier is a genuine reduction
(`high_vol_size_multiplier ≤ 1`, as with the default 0.5). -/
theorem exposure_cap_of_accepted (s : PositionSizing.PositionSizer)
    (account_equity price stop_distance_pct : ℚ) (symbol : String)
    (current_positions : List (ℚ × ℚ)) (sector_exposure_pct : List (String × ℚ))
    (symbol_sector : List (String × String)) (atr_pct : Option ℚ)
    (heq : 0 < account_equity) (hp : 0 < price)
    (hm : s.high_vol_size_multiplier ≤ 1)
    (hacc : (PositionSizing.size_position s account_equity price stop_distance_pct symbol
        current_positions sector_exposure_pct symbol_sector atr_pct).reject_reason = none) :
    ((PositionSizing.size_position s account_equity price stop_distance_pct symbol
        current_positions sector_exposure_pct symbol_sector atr_pct).shares : ℚ) * price
      ≤ account_equity * (s.max_exposure_per_symbol_pct / 100) := by
  simp only [PositionSizing.size_position] at hacc ⊢
  split_ifs at hacc ⊢ with h1 h2 h3 h4 h5
  · have hpos : 0 < pyInt (account_equity * (s.max_exposure_per_symbol_pct / 100) / price) :=
      not_le.mp h5
    have h1s : 1 ≤ pyInt (account_equity * (s.max_exposure_per_symbol_pct / 100) / price) := by
      omega
    have hq0 : 0 ≤ account_equity * (s.max_exposure_per_symbol_pct / 100) / price :=
      nonneg_of_pyInt_pos hpos
    refine sizeFinish_exposure s account_equity price _ symbol sector_exposure_pct
      symbol_sector atr_pct _ _ _ _ _ h1s ?_ hp.le hm
    calc ((pyInt (account_equity * (s.max_exposure_per_symbol_pct / 100) / price) : ℤ) : ℚ)
          * price
        ≤ account_equity * (s.max_exposure_per_symbol_pct / 100) / price * price :=
          mul_le_mul_of_nonneg_right (pyInt_cast_le_self hq0) hp.le
      _ = account_equity * (s.max_exposure_per_symbol_pct / 100) :=
          div_mul_cancel₀ _ (ne_of_gt hp)
  · have hpos : 0 < pyInt (account_equity * (s.risk_per_trade_pct / 100)
        / (price * (stop_distance_pct / 100))) := not_le.mp h3
    have h1s : 1 ≤ pyInt (account_equity * (s.risk_per_trade_pct / 100)
        / (price * (stop_distance_pct / 100))) := by omega
    exact sizeFinish_exposure s account_equity price _ symbol sector_exposure_pct
      symbol_sector atr_pct _ _ _ _ _ h1s (not_lt.mp h4) hp.le hm

/-- C3 witness: the exposure cap holds on a concrete accepted sizing under the
default configuration. -/
theorem exposure_cap_of_accepted_witness :
    ((PositionSizing.size_position PositionSizing.defaultSizer 100000 100 (3/2) "SPY"
        [] [] [] none).shares : ℚ) * 100
      ≤ 100000 * (PositionSizing.defaultSizer.max_exposure_per_symbol_pct / 100) := by
  refine exposure_cap_of_accepted PositionSizing.defaultSizer 100000 100 (3/2) "SPY"
    [] [] [] none (by norm_num) (by norm_num) (by norm_num [PositionSizing.defaultSizer]) ?_
  norm_num [PositionSizing.size_position, PositionSizing.sizeFinish,
    PositionSizing.defaultSizer, pyInt, PositionSizing.atr_above, lookupD]

/-- C3 counterexample: with `high_vol_size_multiplier = 3` the high-volatility
step triples the share count of an otherwise accepted sizing: on equity 1000,
price 10 the result is accepted with 30 shares and notional 300, violating
`shares * price ≤ equity * max_exposure_per_symbol_pct / 100 = 200`. -/
theorem exposure_cap_violated_by_large_multiplier :
    PositionSizing.size_position PositionSizing.hvTripleSizer 1000 10 10 "X" [] [] [] (some 3)
      = ⟨30, 300, 30, 3, none⟩
    ∧ ¬(((30 : ℤ) : ℚ) * 10
        ≤ 1000 * (PositionSizing.hvTripleSizer.max_exposure_per_symbol_pct / 100)) := by
  constructor
  · norm_num [PositionSizing.size_position, PositionSizing.sizeFinish,
      PositionSizing.hvTripleSizer, pyInt, PositionSizing.atr_above, lookupD]
  · norm_num [PositionSizing.hvTripleSizer]

lemma record_fill_blocked_mono (m : Execution.ExecutionManager)
    (st : Execution.ExecutionState) (symbol side : String) (quantity : ℤ)
    (fill_price expected_price : ℚ) (now : ℤ)
    (h : st.strategy_blocked = true) :
    (Execution.record_fill m st symbol side quantity fill_price expected_price
      now).strategy_blocked = true := by
  simp only [Execution.record_fill]
  split_ifs <;> simp [h]

/-- C4 (amended): (1) once `strategy_blocked` is true no sequence of
`record_fill` calls clears it; (2) with the flag `trading_stopped_for_day` set,
`can_trade` on the current `last_trade_date` returns false; (3) `check_daily_reset`
clears the flag on any date different from `last_trade_date` — in particular on
any strictly later date. -/
theorem latching_circuit_breakers :
    (∀ (m : Execution.ExecutionManager) (st : Execution.ExecutionState)
        (fills : List (String × String × ℤ × ℚ × ℚ × ℤ)),
      st.strategy_blocked = true →
      (fills.foldl (fun s f =>
          Execution.record_fill m s f.1 f.2.1 f.2.2.1 f.2.2.2.1 f.2.2.2.2.1 f.2.2.2.2.2)
        st).strategy_blocked = true)
    ∧ (∀ (m : PortfolioRisk.PortfolioRiskManager) (st : PortfolioRisk.State)
        (current_equity : ℚ) (symbol : String) (today : ℤ),
        st.trading_stopped_for_day = true → st.last_trade_date = some today →
        (PortfolioRisk.can_trade m st current_equity symbol today).1 = false)
    ∧ (∀ (st : PortfolioRisk.State) (today : ℤ),
        st.last_trade_date ≠ some today →
        (PortfolioRisk.check_daily_reset st today).trading_stopped_for_day = false) := by
  refine ⟨?_, ?_, ?_⟩
  · intro m st fills h
    induction fills generalizing st with
    | nil => exact h
    | cons f t ih =>
      exact ih _ (record_fill_blocked_mono m st f.1 f.2.1 f.2.2.1 f.2.2.2.1
        f.2.2.2.2.1 f.2.2.2.2.2 h)
  · intro m st current_equity symbol today hstop hlast
    have hres : PortfolioRisk.check_daily_reset st today = st := by
      simp [PortfolioRisk.check_daily_reset, hlast]
    simp only [PortfolioRisk.can_trade, hres]
    split_ifs <;> simp_all
  · intro st today h
    simp [PortfolioRisk.check_daily_reset, if_pos h]

/-- C4 witness: the three latching statements evaluated at concrete states. -/
theorem latching_circuit_breakers_witness :
    ((([("A", "buy", 1, 10, 9, 0)] : List (String × String × ℤ × ℚ × ℚ × ℤ)).foldl
        (fun s f =>
          Execution.record_fill Execution.defaultExec s f.1 f.2.1 f.2.2.1 f.2.2.2.1
            f.2.2.2.2.1 f.2.2.2.2.2)
        ⟨[], 0, true⟩).strategy_blocked = true)
    ∧ (PortfolioRisk.can_trade PortfolioRisk.defaultPR ⟨[], 0, 0, 0, [], some 10, false, true⟩
        100 "A" 10).1 = false
    ∧ (PortfolioRisk.check_daily_reset ⟨[], 0, 0, 0, [], some 10, false, true⟩
        11).trading_stopped_for_day = false :=
  ⟨latching_circuit_breakers.1 Execution.defaultExec ⟨[], 0, true⟩ [("A", "buy", 1, 10, 9, 0)] rfl,
   latching_circuit_breakers.2.1 PortfolioRisk.defaultPR ⟨[], 0, 0, 0, [], some 10, false, true⟩
     100 "A" 10 rfl rfl,
   latching_circuit_breakers.2.2 ⟨[], 0, 0, 0, [], some 10, false, true⟩ 11 (by simp)⟩

/-- C4 counterexample: with `trading_stopped_for_day = true` and
`last_trade_date = 10`, a `can_trade` call dated 5 — a date that is NOT strictly
later — clears the flag through the reset (which fires on any different date)
and returns true, refuting the claim that every call returns false until a
strictly later reset. -/
theorem earlier_date_reset_clears_stop :
    ((⟨[], 0, 0, 0, [], some 10, false, true⟩ : PortfolioRisk.State).trading_stopped_for_day
        = true)
    ∧ ¬((10 : ℤ) < 5)
    ∧ (PortfolioRisk.can_trade PortfolioRisk.defaultPR ⟨[], 0, 0, 0, [], some 10, false, true⟩
        100 "A" 5).1 = true := by
  refine ⟨rfl, by norm_num, ?_⟩
  norm_num [PortfolioRisk.can_trade, PortfolioRisk.check_daily_reset,
    PortfolioRisk.current_drawdown_pct, PortfolioRisk.defaultPR, lookupD]

/-- C5: `can_day_trade` vetoes exactly when PDT is enabled, the account is a
margin account, equity is below `pdt_min_equity`, and at least 3 recorded day
trades fall within the last 7 calendar days; the default `pdt_min_equity` is
25000. -/
theorem can_day_trade_spec (m : Compliance.ComplianceManager) (st : Compliance.PDTState)
    (today : ℤ) :
    ((Compliance.can_day_trade m st today).1 = false ↔
      (m.pdt_enabled = true ∧ m.margin_account = true ∧ st.equity < m.pdt_min_equity
        ∧ 3 ≤ (st.day_trade_dates.filter (fun d => decide (today - 7 ≤ d))).length))
    ∧ Compliance.defaultCompliance.pdt_min_equity = 25000 := by
  refine ⟨?_, rfl⟩
  simp only [Compliance.can_day_trade]
  split_ifs with h1 h2 h3
  · rcases h1 with h | h <;> simp [h]
  · simp [not_lt.mpr h2]
  · simp only [not_or, Bool.not_eq_false] at h1
    exact iff_of_true rfl ⟨h1.1, h1.2, not_le.mp h2, h3⟩
  · exact iff_of_false (by simp) (fun hc => h3 hc.2.2.2)

lemma foldl_update_equity_peak (l : List (ℤ × ℚ)) :
    ∀ st : PortfolioRisk.State,
      (l.foldl (fun s p => PortfolioRisk.update_equity s p.1 p.2) st).peak_equity
        = l.foldl (fun acc p => max acc p.2) st.peak_equity := by
  induction l with
  | nil => intro st; rfl
  | cons p t ih =>
    intro st
    rw [List.foldl_cons, List.foldl_cons, ih]
    have : (PortfolioRisk.update_equity st p.1 p.2).peak_equity
        = max st.peak_equity p.2 := by
      simp only [PortfolioRisk.update_equity]
      rcases lt_or_le st.peak_equity p.2 with h | h
      · rw [if_pos h, max_eq_right h.le]
      · rw [if_neg (not_lt.mpr h), max_eq_left h]
    rw [this]

/-- C6 (amended): after any sequence of `update_equity` calls on the initial
state, `peak_equity` is the maximum of the initial peak 0 and the supplied
equities; each call appends the `(t, eq)` pair to the curve and raises the peak
to `eq` exactly when `eq` exceeds the current peak. -/
theorem peak_equity_is_fold_max :
    (∀ l : List (ℤ × ℚ),
      (l.foldl (fun s p => PortfolioRisk.update_equity s p.1 p.2)
          PortfolioRisk.prInit).peak_equity
        = l.foldl (fun acc p => max acc p.2) 0)
    ∧ (∀ (st : PortfolioRisk.State) (dt : ℤ) (e : ℚ),
        (PortfolioRisk.update_equity st dt e).equity_curve = st.equity_curve ++ [(dt, e)]
        ∧ (PortfolioRisk.update_equity st dt e).peak_equity
            = if st.peak_equity < e then e else st.peak_equity) :=
  ⟨fun l => foldl_update_equity_peak l PortfolioRisk.prInit, fun _ _ _ => ⟨rfl, rfl⟩⟩

/-- C6 counterexample: one `update_equity` with equity -5 on the initial state
leaves `peak_equity = 0`, not the maximum -5 of the supplied equities. -/
theorem peak_not_max_on_negative_equity :
    (PortfolioRisk.update_equity PortfolioRisk.prInit 0 (-5)).peak_equity = 0
      ∧ ((-5 : ℚ) ≠ 0) := by
  constructor
  · norm_num [PortfolioRisk.update_equity, PortfolioRisk.prInit]
  · norm_num

/-- C7 (amended): `current_drawdown_pct` is 0 when `peak_equity ≤ 0`, equals
`(current - peak)/peak * 100` when `peak_equity > 0`, and is nonpositive when
additionally `current_equity ≤ peak_equity` (which holds after `update_equity`
with that equity). -/
theorem drawdown_spec (st : PortfolioRisk.State) (current_equity : ℚ) :
    (st.peak_equity ≤ 0 → PortfolioRisk.current_drawdown_pct st current_equity = 0)
    ∧ (0 < st.peak_equity →
        PortfolioRisk.current_drawdown_pct st current_equity
          = (current_equity - st.peak_equity) / st.peak_equity * 100)
    ∧ (0 < st.peak_equity → current_equity ≤ st.peak_equity →
        PortfolioRisk.current_drawdown_pct st current_equity ≤ 0) := by
  refine ⟨fun h => ?_, fun h => ?_, fun h hle => ?_⟩
  · simp [PortfolioRisk.current_drawdown_pct, h]
  · simp [PortfolioRisk.current_drawdown_pct, not_le.mpr h]
  · have hd : PortfolioRisk.current_drawdown_pct st current_equity
        = (current_equity - st.peak_equity) / st.peak_equity * 100 := by
      simp [PortfolioRisk.current_drawdown_pct, not_le.mpr h]
    rw [hd]
    have hnum : current_equity - st.peak_equity ≤ 0 := by linarith
    have hq : (current_equity - st.peak_equity) / st.peak_equity ≤ 0 :=
      div_nonpos_of_nonpos_of_nonneg hnum h.le
    linarith

/-- C7 witness: the drawdown sign evaluated at peak 100, equity 90. -/
theorem drawdown_spec_witness :
    PortfolioRisk.current_drawdown_pct ⟨[], 100, 0, 0, [], none, false, false⟩ 90 ≤ 0 :=
  (drawdown_spec ⟨[], 100, 0, 0, [], none, false, false⟩ 90).2.2 (by norm_num) (by norm_num)

/-- C7 counterexample: with peak 100 and current equity 110 the drawdown is
+10, which is not ≤ 0, refuting the claim for arbitrary `current_equity`. -/
theorem drawdown_positive_above_peak :
    PortfolioRisk.current_drawdown_pct ⟨[], 100, 0, 0, [], none, false, false⟩ 110 = 10
      ∧ ¬((10 : ℚ) ≤ 0) := by
  constructor
  · norm_num [PortfolioRisk.current_drawdown_pct]
  · norm_num

/-- C8: for both the calendar session test and the macro-blackout window test,
a window with start after end wraps midnight — a time is inside iff it is at or
after the start or before the end — while a window with start at or before end
is the ordinary half-open interval; concretely the 20:00-04:00 window contains
23:00 and 02:00 and excludes 05:00, and a macro blackout window 20:00-04:00
vetoes at 23:00 on its date. -/
theorem window_wrap_spec (sstart send : ℕ) (allowed : Bool) (t : ℕ) :
    (send < sstart →
      ((Universe._in_window t ⟨sstart, send, allowed⟩ = true ↔ (sstart ≤ t ∨ t < send))
        ∧ (TradeFilters.window_hit t sstart send = true ↔ (sstart ≤ t ∨ t < send))))
    ∧ (sstart ≤ send →
      ((Universe._in_window t ⟨sstart, send, allowed⟩ = true ↔ (sstart ≤ t ∧ t < send))
        ∧ (TradeFilters.window_hit t sstart send = true ↔ (sstart ≤ t ∧ t < send))))
    ∧ (Universe._in_window 1380 ⟨1200, 240, true⟩ = true
        ∧ Universe._in_window 120 ⟨1200, 240, true⟩ = true
        ∧ Universe._in_window 300 ⟨1200, 240, true⟩ = false
        ∧ TradeFilters.MacroEventBlackout.check ⟨true, [], [(5, 1200, 240)]⟩ 5 1380 = false) := by
  refine ⟨fun h => ?_, fun h => ?_, by decide⟩
  · constructor <;>
      simp [Universe._in_window, TradeFilters.window_hit, Nat.not_le.mpr h, if_neg]
  · constructor <;>
      simp [Universe._in_window, TradeFilters.window_hit, h]

/-- C8 witness: wrap membership applied at the 20:00-04:00 window for 23:00 and
02:00 (in minutes since midnight). -/
theorem window_wrap_spec_witness :
    Universe._in_window 1380 ⟨1200, 240, true⟩ = true
      ∧ TradeFilters.window_hit 120 1200 240 = true := by
  have h := window_wrap_spec 1200 240 true 1380
  have h' := window_wrap_spec 1200 240 true 120
  exact ⟨(h.1 (by norm_num)).1.mpr (Or.inl (by norm_num)),
    (h'.1 (by norm_num)).2.mpr (Or.inr (by norm_num))⟩

lemma check_daily_reset_safe_mode (st : PortfolioRisk.State) (today : ℤ) :
    (PortfolioRisk.check_daily_reset st today).safe_mode = st.safe_mode := by
  simp only [PortfolioRisk.check_daily_reset]
  split_ifs <;> rfl

lemma step_safe_mode (m : PortfolioRisk.PortfolioRiskManager) (st : PortfolioRisk.State)
    (op : PortfolioRisk.PROp) (h : st.safe_mode = true) :
    (PortfolioRisk.step m st op).safe_mode = true := by
  cases op with
  | updateEquity dt e => simpa [PortfolioRisk.step, PortfolioRisk.update_equity] using h
  | checkDailyReset d =>
    simpa [PortfolioRisk.step, check_daily_reset_safe_mode] using h
  | canTrade e sym d =>
    have hs := check_daily_reset_safe_mode st d
    simp only [PortfolioRisk.step, PortfolioRisk.can_trade]
    split_ifs <;> simp_all
  | recordTrade sym p => simpa [PortfolioRisk.step, PortfolioRisk.record_trade] using h

/-- C9: no sequence of portfolio-risk operations (`update_equity`,
`check_daily_reset`, `can_trade`, `record_trade`) ever clears `safe_mode` once
it is true — recovery above `recovery_criteria_pct` only lets `can_trade` fall
through the safe-mode veto, it never resets the flag. -/
theorem safe_mode_latched (m : PortfolioRisk.PortfolioRiskManager)
    (st : PortfolioRisk.State) (ops : List PortfolioRisk.PROp)
    (h : st.safe_mode = true) :
    (ops.foldl (PortfolioRisk.step m) st).safe_mode = true := by
  induction ops generalizing st with
  | nil => exact h
  | cons op t ih => exact ih _ (step_safe_mode m st op h)

/-- C9 witness: safe mode stays latched across a concrete operation sequence
that includes a fully recovered `can_trade` call. -/
theorem safe_mode_latched_witness :
    (([.updateEquity 0 100, .canTrade 100 "A" 1, .recordTrade "A" 1, .checkDailyReset 2] :
        List PortfolioRisk.PROp).foldl (PortfolioRisk.step PortfolioRisk.defaultPR)
      ⟨[], 0, 0, 0, [], none, true, false⟩).safe_mode = true :=
  safe_mode_latched PortfolioRisk.defaultPR ⟨[], 0, 0, 0, [], none, true, false⟩
    [.updateEquity 0 100, .canTrade 100 "A" 1, .recordTrade "A" 1, .checkDailyReset 2] rfl

/-- C10: `record_fill` always appends exactly one `FillReport` whose
`slippage_bps` is 0 whenever `expected_price ≤ 0`, and is the side-dependent
basis-point formula only under the guard `expected_price > 0`; in particular no
division by a nonpositive expected price is ever performed. -/
theorem record_fill_slippage_guard (m : Execution.ExecutionManager)
    (st : Execution.ExecutionState) (symbol side : String) (quantity : ℤ)
    (fill_price expected_price : ℚ) (now : ℤ) :
    ((Execution.record_fill m st symbol side quantity fill_price expected_price
        now).fill_history
      = st.fill_history ++ [⟨symbol, side, quantity, fill_price, expected_price,
          (if expected_price ≤ 0 then 0
           else if side = "buy" then (fill_price - expected_price) / expected_price * 10000
           else (expected_price - fill_price) / expected_price * 10000), now⟩])
    ∧ (expected_price ≤ 0 →
        ((Execution.record_fill m st symbol side quantity fill_price expected_price
            now).fill_history.getLast?).map Execution.FillReport.slippage_bps = some 0) := by
  constructor
  · rfl
  · intro h
    simp [Execution.record_fill, if_pos h]

/-- C10 witness: the zero-slippage guard evaluated at a fill whose expected
price is 0. -/
theorem record_fill_slippage_guard_witness :
    ((Execution.record_fill Execution.defaultExec ⟨[], 0, false⟩ "SPY" "buy" 1 10 0
        0).fill_history.getLast?).map Execution.FillReport.slippage_bps = some 0 :=
  (record_fill_slippage_guard Execution.defaultExec ⟨[], 0, false⟩ "SPY" "buy" 1 10 0 0).2
    (by norm_num)
